import Mathlib

/-
  Shallow embedding of the recipe aggregation backend (src/app.py).

  Conventions of the embedding:
  * Mongo documents are schema-less; a stored recipe document is modelled by
    the record type `StoredRecord` whose fields are all `Option`-valued
    (`none` models an absent key, which Python's `dict.get` turns into `None`).
  * The Mongo `_id` is modelled as the field `oid : String` (its string form).
  * Nutrition values (`calories` / `protein`) are modelled by their string
    rendering, since the code only ever interpolates them into an f-string.
  * The external collaborators (Mongo text search, the Gemini generation
    service, `ObjectId.is_valid`, password hashing) are modelled as explicit
    functional parameters; a `none` result of the generation service models
    any exception in the try-block of `generate_recipes` up to and including
    `json.loads` failing on the response text.
  * Python string `lower()` is modelled by `strLower` (ASCII lowercasing).
  * HTTP error responses are modelled as `Except.error s` with `s` the status
    code; handler instrumentation additionally reports how many calls to the
    generation service the handler performs (second component of the result).
-/

structure Ingredient where
  name : String
  quantity : String
deriving DecidableEq

structure Nutrition where
  calories : Option String
  protein : Option String
deriving DecidableEq

-- A raw persisted recipe document, from either Mongo collection
-- (`StoredRecipes` or `recipes`).
structure StoredRecord where
  oid : String
  title : Option String
  description : Option String
  ingredients : Option (List Ingredient)
  steps : Option (List String)
  instructions : Option (List String)
  cooking_time : Option Nat
  difficulty : Option String
  nutrition : Option Nutrition
  servings : Option String
deriving DecidableEq

-- Python `str(x)` applied to an `Option` value coming out of `dict.get`:
-- an absent key gives Python `None`, which renders as the string "None".
def pyStr : Option String → String
  | none => "None"
  | some s => s

-- Python `a or b` on two list-valued `dict.get` results: a present non-empty
-- list is truthy; `None` and the empty list are falsy (app.py lines 139, 278).
def pyOrList : Option (List String) → Option (List String) → Option (List String)
  | some s, b => if s = [] then b else some s
  | none, b => b

-- `f"Calories: {r.get('nutrition', {}).get('calories', 'N/A')}, Protein: ...g"`
-- (app.py lines 142, 281).
def nutritionalInfoOf (n : Option Nutrition) : String :=
  let nn := n.getD { calories := none, protein := none }
  "Calories: " ++ nn.calories.getD "N/A" ++ ", Protein: " ++ nn.protein.getD "N/A" ++ "g"

-- Canonical recipe shape produced for a database match by `generate_recipes`
-- (app.py lines 272-283); `title` is accessed with `recipe['title']`, so it
-- is required there.
structure RecipeOut where
  id : String
  title : String
  description : Option String
  ingredients : Option (List Ingredient)
  instructions : Option (List String)
  cookingTime : Option Nat
  difficulty : Option String
  nutritionalInfo : String
  servings : String
deriving DecidableEq

-- Canonical recipe shape produced by `get_favorites` (app.py lines 132-144);
-- there `title` is accessed with `recipe.get('title')`, hence optional.
structure FavOut where
  id : String
  title : Option String
  description : Option String
  ingredients : Option (List Ingredient)
  instructions : Option (List String)
  cookingTime : Option Nat
  difficulty : Option String
  nutritionalInfo : String
  servings : String
deriving DecidableEq

-- The per-match formatting loop body of `generate_recipes` (app.py 272-283).
-- `none` models the KeyError raised by `recipe['title']` on a record without
-- a "title" key (an unhandled exception, i.e. a 500 response).
def formatDbMatch (r : StoredRecord) : Option RecipeOut :=
  match r.title with
  | none => none
  | some t =>
    some { id := r.oid
           title := t
           description := r.description
           ingredients := r.ingredients
           instructions := pyOrList r.steps r.instructions
           cookingTime := r.cooking_time
           difficulty := r.difficulty
           nutritionalInfo := nutritionalInfoOf r.nutrition
           servings := "Serves " ++ pyStr r.servings }

-- The per-record formatting loop body of `get_favorites` (app.py 132-144);
-- every access there is a defensive `.get`, so it is total.
def formatFavorite (r : StoredRecord) : FavOut :=
  { id := r.oid
    title := r.title
    description := r.description
    ingredients := r.ingredients
    instructions := pyOrList r.steps r.instructions
    cookingTime := r.cooking_time
    difficulty := r.difficulty
    nutritionalInfo := nutritionalInfoOf r.nutrition
    servings := "Serves " ++ pyStr r.servings }

-- Formatting of a whole list of database matches: the formatting loop of
-- `generate_recipes` runs records in order and the first missing title
-- aborts the request with an unhandled KeyError.
def formatAll : List StoredRecord → Option (List RecipeOut)
  | [] => some []
  | r :: rest =>
    match formatDbMatch r, formatAll rest with
    | some o, some os => some (o :: os)
    | _, _ => none

-- An AI-generated candidate recipe, as parsed from the generation service's
-- JSON. Only the "title" key is inspected by the code under verification;
-- `title = none` models a candidate object that lacks the "title" key.
structure AIRecipe where
  title : Option String
deriving DecidableEq

-- An element of the final list returned by `generate_recipes`: formatted
-- database matches and raw AI candidate objects are appended to the same
-- Python list (app.py lines 273, 314).
inductive Item where
  | stored : RecipeOut → Item
  | ai : AIRecipe → Item
deriving DecidableEq

-- Python `str.lower()`, modelled as ASCII lowercasing of the character
-- list (the titles manipulated by the code; avoids the non-reducing
-- well-founded recursion of `String.map`).
def strLower (s : String) : String := ⟨s.data.map Char.toLower⟩

/-
  The duplicate-filter loop of `generate_recipes` (app.py lines 311-315):

      existing_titles = {recipe['title'].lower() for recipe in final_recipes}
      for recipe in ai_recipes:
          if recipe['title'].lower() not in existing_titles:
              final_recipes.append(recipe)
              existing_titles.add(recipe['title'].lower())

  The result is the list of appended candidates together with a flag that is
  `false` when the loop was aborted by a KeyError (`recipe['title']` on a
  candidate without a "title" key); that exception is caught by the
  surrounding `except` clause. The set `existing_titles` is modelled as a
  list of (lowercased) strings used only through membership.
-/
def dedupLoop (existing : List String) : List AIRecipe → List AIRecipe × Bool
  | [] => ([], true)
  | c :: rest =>
    match c.title with
    | none => ([], false)
    | some t =>
      if strLower t ∈ existing then dedupLoop existing rest
      else
        let p := dedupLoop (strLower t :: existing) rest
        (c :: p.1, p.2)

-- Specification-side duplicate filter, written from the spec's words
-- (spec.md §4.2): "yield only candidates whose lowercased title is not in
-- the set, updating the set as each is accepted". Used only to compare the
-- code's filter against the specified one.
def dupFilterSpec (selected : List String) : List AIRecipe → List AIRecipe
  | [] => []
  | c :: rest =>
    let t := strLower (c.title.getD "")
    if t ∈ selected then dupFilterSpec selected rest
    else c :: dupFilterSpec (t :: selected) rest

-- The Mongo query built by `find_matching_recipes` (app.py lines 48-53):
-- a full-text `$search` on the space-joined ingredients, plus an exact
-- `cuisine` equality filter added under `if cuisine and cuisine.lower() != 'any'`.
structure Query where
  search : String
  cuisineFilter : Option String
deriving DecidableEq

def buildQuery (user_ingredients : List String) (cuisine : String) : Query :=
  { search := String.intercalate " " user_ingredients
    cuisineFilter :=
      if cuisine ≠ "" ∧ strLower cuisine ≠ "any" then some cuisine else none }

-- Claim-side cuisine filter, written from the claim's words (claim C6:
-- "an exact-match cuisine filter is added exactly when cuisine ≠ \x22any\x22");
-- used only to compare the code's query against the claimed one.
def cuisineFilterClaimed (cuisine : String) : Option String :=
  if cuisine ≠ "any" then some cuisine else none

-- The document store's search capability, one ranked result list per
-- collection per query. These are the external Mongo collaborators
-- (`mongo.db.StoredRecipes.find(query)` and `mongo.db.recipes.find(query)`).
structure DB where
  storedSearch : Query → List StoredRecord
  recipesSearch : Query → List StoredRecord

-- `find_matching_recipes` (app.py lines 45-62): build the query, then take
-- up to 3 results from each requested collection, `StoredRecipes` first.
-- `dietary_prefs` is accepted but never used in the query (it is only
-- printed), exactly as in the source.
def find_matching_recipes (user_ingredients : List String) (dietary_prefs : List String)
    (cuisine : String) (collections : List String) (db : DB) : List StoredRecord :=
  (if "StoredRecipes" ∈ collections
   then (db.storedSearch (buildQuery user_ingredients cuisine)).take 3 else [])
    ++ (if "recipes" ∈ collections
        then (db.recipesSearch (buildQuery user_ingredients cuisine)).take 3 else [])

-- The generation collaborator: called with the ingredients, dietary
-- preferences, serving count, cuisine and the titles of the database matches
-- (the data interpolated into the prompt, app.py lines 286-299). A `none`
-- result models any failure of the call or of `json.loads` on its response.
def GenService : Type :=
  List String → List String → Nat → String → List String → Option (List AIRecipe)

-- Body of a POST to /generate_recipes after applying the handler's
-- defaults; `ingredients = none` models a body without an "ingredients" key
-- (app.py line 254 rejects it with a 400).
structure GenRequest where
  ingredients : Option (List String)
  dietary : List String
  servings : Nat
  cuisine : String

-- Body of a POST to /public_recipes (app.py lines 236-240: every field is
-- read with a defaulted `.get`, so none is required).
structure PubRequest where
  ingredients : List String
  dietary : List String
  servings : Nat
  cuisine : String

/-
  Core of the /generate_recipes handler after the database fetch
  (app.py lines 266-323):
  * formatting a match without a "title" key raises an unhandled KeyError
    (modelled as a 500);
  * a failed generation call / unparseable response enters the `except`
    branch: 500 when `final_recipes` is empty, otherwise the database
    matches alone are returned;
  * otherwise the duplicate filter runs; if it aborts (KeyError on a
    candidate), the same `except` branch applies, keeping the candidates
    appended before the abort.
-/
def generate_recipes_core (dbm : List StoredRecord) (aiResult : Option (List AIRecipe)) :
    Except Nat (List Item) :=
  match formatAll dbm with
  | none => Except.error 500
  | some final0 =>
    match aiResult with
    | none =>
      if final0 = [] then Except.error 500
      else Except.ok (final0.map Item.stored)
    | some ai_recipes =>
      if (dedupLoop (final0.map (fun r => strLower r.title)) ai_recipes).2 then
        Except.ok (final0.map Item.stored
          ++ ((dedupLoop (final0.map (fun r => strLower r.title)) ai_recipes).1).map Item.ai)
      else if final0.map Item.stored
          ++ ((dedupLoop (final0.map (fun r => strLower r.title)) ai_recipes).1).map Item.ai = [] then
        Except.error 500
      else
        Except.ok (final0.map Item.stored
          ++ ((dedupLoop (final0.map (fun r => strLower r.title)) ai_recipes).1).map Item.ai)

-- The /generate_recipes handler (app.py lines 250-323). The second
-- component counts the calls made to the generation service (the Gemini
-- call is only reached when formatting the matches did not raise).
def generate_recipes (req : GenRequest) (db : DB) (gen : GenService) :
    Except Nat (List Item) × Nat :=
  match req.ingredients with
  | none => (Except.error 400, 0)
  | some ings =>
    (generate_recipes_core
      (find_matching_recipes ings req.dietary req.cuisine ["StoredRecipes", "recipes"] db)
      (gen ings req.dietary req.servings req.cuisine
        ((find_matching_recipes ings req.dietary req.cuisine ["StoredRecipes", "recipes"] db).map
          (fun r => r.title.getD ""))),
     if (formatAll
          (find_matching_recipes ings req.dietary req.cuisine
            ["StoredRecipes", "recipes"] db)).isSome
     then 1 else 0)

-- The /public_recipes handler (app.py lines 234-247): it queries only the
-- `StoredRecipes` collection and returns the matches (with `_id` renamed to
-- `id`, a pure key rename). It never touches the generation service; the
-- count of generation calls performed is 0.
def public_recipes (req : PubRequest) (db : DB) (gen : GenService) :
    List StoredRecord × Nat :=
  (find_matching_recipes req.ingredients req.dietary req.cuisine ["StoredRecipes"] db, 0)

-- A document of the `users` collection.
structure User where
  uid : String
  username : String
  password : String
  favorites : List String
deriving DecidableEq

-- The mutable collections touched by the account/favorites handlers:
-- `users` and the ad-hoc `recipes` collection.
structure AppState where
  users : List User
  recipes : List StoredRecord
deriving DecidableEq

-- The /register handler (app.py lines 99-104): hash the password and
-- insert a fresh user document unconditionally. `hash` models
-- `generate_password_hash`, `newId` the `_id` Mongo assigns.
def register (st : AppState) (username password : String)
    (hash : String → String) (newId : String) : AppState :=
  { st with
    users := st.users ++ [{ uid := newId
                            username := username
                            password := hash password
                            favorites := [] }] }

-- Mongo `$addToSet` on an array field: append the value only when it is
-- not already present.
def addToSet (x : String) (l : List String) : List String :=
  if x ∈ l then l else l ++ [x]

-- `users.update_one({'_id': userId}, {'$addToSet': {'favorites': rid}})`.
def updateFavs (users : List User) (userId rid : String) : List User :=
  users.map (fun u =>
    if u.uid = userId then { u with favorites := addToSet rid u.favorites } else u)

-- The JSON body POSTed to /favorite: the canonical recipe shape, with an
-- optional `id`. (`nutritionalInfo` is the flat string of the canonical
-- shape; when such a body is persisted no nested `nutrition` object is
-- stored, which is what `nutrition := none` on the inserted record models.)
structure FavBody where
  id : Option String
  title : Option String
  description : Option String
  ingredients : Option (List Ingredient)
  instructions : Option (List String)
  cookingTime : Option Nat
  difficulty : Option String
  nutritionalInfo : Option String
  servings : Option String
deriving DecidableEq

-- The document inserted by /favorite for a recipe without a durable id
-- (app.py lines 160-164): the body minus its `id` key, with the
-- `instructions` key renamed to the legacy `steps` key.
def mkAdHocRecord (body : FavBody) (newId : String) : StoredRecord :=
  { oid := newId
    title := body.title
    description := body.description
    ingredients := body.ingredients
    steps := body.instructions
    instructions := none
    cooking_time := body.cookingTime
    difficulty := body.difficulty
    nutrition := none
    servings := body.servings }

-- The /favorite handler (app.py lines 148-171). `isValid` models
-- `ObjectId.is_valid` (false on a missing id, as in Python where
-- `recipe_data.get('id')` gives `None`); `newId` the id Mongo would assign
-- on insert. Returns the new state and the recipe id added to favorites.
def add_favorite (st : AppState) (userId : String) (body : FavBody)
    (isValid : String → Bool) (newId : String) : AppState × String :=
  match body.id with
  | some rid =>
    if isValid rid then
      ({ st with users := updateFavs st.users userId rid }, rid)
    else
      ({ users := updateFavs st.users userId newId
         recipes := st.recipes ++ [mkAdHocRecord body newId] }, newId)
  | none =>
    ({ users := updateFavs st.users userId newId
       recipes := st.recipes ++ [mkAdHocRecord body newId] }, newId)

-- Mongo `delete_one({'_id': rid})` on the `recipes` collection: remove the
-- first document whose id matches.
def removeFirst (rid : String) : List StoredRecord → List StoredRecord
  | [] => []
  | r :: rest => if r.oid = rid then rest else r :: removeFirst rid rest

-- `users.update_one({'_id': userId}, {'$pull': {'favorites': rid}})`:
-- remove every occurrence of the id from the user's favorites array.
def pullFavs (users : List User) (userId rid : String) : List User :=
  users.map (fun u =>
    if u.uid = userId then { u with favorites := u.favorites.filter (fun f => f ≠ rid) } else u)

-- The /unfavorite handler (app.py lines 174-195): `$pull` the id from the
-- current user's favorites, then `find_one({'favorites': rid})` over the
-- (already updated) users; when no user still references the id, delete
-- the ad-hoc recipe document with that id.
def remove_favorite (st : AppState) (userId rid : String) : AppState :=
  if (pullFavs st.users userId rid).any (fun u => rid ∈ u.favorites) then
    { st with users := pullFavs st.users userId rid }
  else
    { users := pullFavs st.users userId rid, recipes := removeFirst rid st.recipes }

-- Claim-side reading of the instructions normalization, written from the
-- words of claim C3: the "steps" value when the field is present, else the
-- "instructions" value when present, else the empty sequence. Used only to
-- compare the code's normalization against the claimed one.
def instructionsClaimed (r : StoredRecord) : Option (List String) :=
  match r.steps with
  | some s => some s
  | none =>
    match r.instructions with
    | some i => some i
    | none => some []

-- Concrete inputs used by the witness theorems.

def recW : StoredRecord :=
  { oid := "64a0"
    title := some "Tomato Soup"
    description := none
    ingredients := none
    steps := some ["Chop", "Boil"]
    instructions := none
    cooking_time := some 20
    difficulty := some "Easy"
    nutrition := none
    servings := some "2" }

def outW : RecipeOut :=
  { id := "64a0"
    title := "Tomato Soup"
    description := none
    ingredients := none
    instructions := some ["Chop", "Boil"]
    cookingTime := some 20
    difficulty := some "Easy"
    nutritionalInfo := "Calories: N/A, Protein: N/Ag"
    servings := "Serves 2" }

def dbW : DB :=
  { storedSearch := fun _ => [recW], recipesSearch := fun _ => [] }

def dbEmptyW : DB :=
  { storedSearch := fun _ => [], recipesSearch := fun _ => [] }

def genNoneW : GenService := fun _ _ _ _ _ => none

def reqW : GenRequest :=
  { ingredients := some ["tomato"], dietary := [], servings := 2, cuisine := "any" }

def aiGood : AIRecipe := { title := some "Garlic Bread" }

def aiBad : AIRecipe := { title := none }

def aiPost : AIRecipe := { title := some "Dropped Dish" }

def genBadW : GenService := fun _ _ _ _ _ => some [aiGood, aiBad, aiPost]

def seedEx : List String := ["Tomato Soup"].map strLower

def candsEx : List AIRecipe :=
  [{ title := some "tomato soup" }, { title := some "Garlic Bread" },
   { title := some "garlic bread" }]

def recC3 : StoredRecord :=
  { oid := "r3"
    title := some "Soup"
    description := none
    ingredients := none
    steps := some []
    instructions := some ["Boil water"]
    cooking_time := none
    difficulty := none
    nutrition := none
    servings := none }

def recC3w : StoredRecord :=
  { recC3 with steps := some ["Chop"], instructions := some ["Ignored"] }

def recNutrC4 : StoredRecord :=
  { oid := "r5"
    title := some "Stew"
    description := none
    ingredients := none
    steps := none
    instructions := none
    cooking_time := none
    difficulty := none
    nutrition := some { calories := none, protein := some "7" }
    servings := none }

def recAllAbsent : StoredRecord :=
  { oid := "r4"
    title := some "Plain"
    description := none
    ingredients := none
    steps := none
    instructions := none
    cooking_time := none
    difficulty := none
    nutrition := none
    servings := none }

def stC7 : AppState :=
  { users := [{ uid := "u1", username := "alice", password := "h", favorites := [] }]
    recipes := [] }

def bodyC7 : FavBody :=
  { id := some "abc"
    title := some "Tomato Soup"
    description := none
    ingredients := none
    instructions := none
    cookingTime := none
    difficulty := none
    nutritionalInfo := none
    servings := none }

def validAll : String → Bool := fun _ => true

def stC8 : AppState :=
  { users := [{ uid := "u1", username := "alice", password := "h", favorites := ["r1"] }]
    recipes := [{ recW with oid := "r1" }] }

def hashId : String → String := fun s => s

-- Helper lemmas (shared by the claim theorems below).

theorem formatAll_eq_nil_iff {l : List StoredRecord} {f : List RecipeOut}
    (h : formatAll l = some f) : f = [] ↔ l = [] := by
  cases l with
  | nil =>
    simp only [formatAll, Option.some.injEq] at h
    subst h
    simp
  | cons r rest =>
    simp only [formatAll] at h
    constructor
    · intro hf
      subst hf
      cases hr : formatDbMatch r <;> rw [hr] at h
      · exact absurd h (by simp)
      · cases hrest : formatAll rest <;> rw [hrest] at h
        · exact absurd h (by simp)
        · simp at h
    · intro hl
      exact absurd hl (by simp)

theorem dedupLoop_spec (existing : List String) (cands : List AIRecipe)
    (h : ∀ c ∈ cands, c.title ≠ none) :
    dedupLoop existing cands = (dupFilterSpec existing cands, true) := by
  induction cands generalizing existing with
  | nil => rfl
  | cons c rest ih =>
    have hc : c.title ≠ none := h c (by simp)
    obtain ⟨t, ht⟩ : ∃ t, c.title = some t := by
      cases hco : c.title
      · exact absurd hco hc
      · exact ⟨_, rfl⟩
    have hrest : ∀ x ∈ rest, x.title ≠ none := fun x hx => h x (by simp [hx])
    simp only [dedupLoop, dupFilterSpec, ht, Option.getD_some]
    by_cases hm : strLower t ∈ existing
    · rw [if_pos hm, if_pos hm]
      exact ih existing hrest
    · rw [if_neg hm, if_neg hm, ih (strLower t :: existing) hrest]

theorem dedupLoop_sublist (existing : List String) (cands : List AIRecipe) :
    (dedupLoop existing cands).1.Sublist cands := by
  induction cands generalizing existing with
  | nil => simp [dedupLoop]
  | cons c rest ih =>
    cases ht : c.title with
    | none => simp [dedupLoop, ht]
    | some t =>
      simp only [dedupLoop, ht]
      by_cases hm : strLower t ∈ existing
      · rw [if_pos hm]
        exact (ih existing).cons c
      · rw [if_neg hm]
        exact (ih (strLower t :: existing)).cons₂ c

theorem dedupLoop_abort (existing : List String) (pre post : List AIRecipe) (bad : AIRecipe)
    (hpre : ∀ c ∈ pre, c.title ≠ none) (hbad : bad.title = none) :
    dedupLoop existing (pre ++ bad :: post) = ((dedupLoop existing pre).1, false) := by
  induction pre generalizing existing with
  | nil => simp [dedupLoop, hbad]
  | cons c rest ih =>
    have hc : c.title ≠ none := hpre c (by simp)
    obtain ⟨t, ht⟩ : ∃ t, c.title = some t := by
      cases hco : c.title
      · exact absurd hco hc
      · exact ⟨_, rfl⟩
    have hrest : ∀ x ∈ rest, x.title ≠ none := fun x hx => hpre x (by simp [hx])
    simp only [List.cons_append, dedupLoop, ht, List.append_eq]
    by_cases hm : strLower t ∈ existing
    · rw [if_pos hm, if_pos hm]
      exact ih existing hrest
    · rw [if_neg hm, if_neg hm, ih (strLower t :: existing) hrest]

theorem addToSet_idem (x : String) (l : List String) :
    addToSet x (addToSet x l) = addToSet x l := by
  unfold addToSet
  by_cases h : x ∈ l
  · simp [h]
  · simp [h]

theorem count_addToSet (x : String) (l : List String) (h : l.count x ≤ 1) :
    (addToSet x l).count x = 1 := by
  unfold addToSet
  by_cases hm : x ∈ l
  · rw [if_pos hm]
    have h1 : 0 < l.count x := List.count_pos_iff.2 hm
    omega
  · rw [if_neg hm]
    have h0 : l.count x = 0 := List.count_eq_zero.2 hm
    rw [List.count_append, h0]
    simp

theorem removeFirst_no_id (rid : String) (l : List StoredRecord)
    (hnodup : (l.map (fun r => r.oid)).Nodup) :
    ∀ r ∈ removeFirst rid l, r.oid ≠ rid := by
  induction l with
  | nil => simp [removeFirst]
  | cons x rest ih =>
    simp only [List.map_cons, List.nodup_cons] at hnodup
    obtain ⟨hx, hrest⟩ := hnodup
    intro r hr
    unfold removeFirst at hr
    by_cases hox : x.oid = rid
    · rw [if_pos hox] at hr
      intro hrid
      apply hx
      rw [List.mem_map]
      exact ⟨r, hr, by rw [hrid, ← hox]⟩
    · rw [if_neg hox] at hr
      rcases List.mem_cons.1 hr with h | h
      · rw [h]; exact hox
      · exact ih hrest r h

theorem formatDbMatch_agrees (r : StoredRecord) (o : RecipeOut)
    (h : formatDbMatch r = some o) :
    o.id = (formatFavorite r).id
    ∧ some o.title = (formatFavorite r).title
    ∧ o.description = (formatFavorite r).description
    ∧ o.ingredients = (formatFavorite r).ingredients
    ∧ o.instructions = (formatFavorite r).instructions
    ∧ o.cookingTime = (formatFavorite r).cookingTime
    ∧ o.difficulty = (formatFavorite r).difficulty
    ∧ o.nutritionalInfo = (formatFavorite r).nutritionalInfo
    ∧ o.servings = (formatFavorite r).servings := by
  cases ht : r.title with
  | none => simp [formatDbMatch, ht] at h
  | some t =>
    simp only [formatDbMatch, ht, Option.some.injEq] at h
    subst h
    simp [formatFavorite, ht]

theorem updateFavs_idem (users : List User) (userId rid : String) :
    updateFavs (updateFavs users userId rid) userId rid = updateFavs users userId rid := by
  unfold updateFavs
  rw [List.map_map]
  apply List.map_congr_left
  intro u _
  simp only [Function.comp_apply]
  by_cases h : u.uid = userId
  · simp [h, addToSet_idem]
  · simp [h]

theorem count_updateFavs_twice (users : List User) (userId rid : String)
    (h : ∀ u ∈ users, u.favorites.count rid ≤ 1) :
    ∀ u ∈ updateFavs (updateFavs users userId rid) userId rid,
      u.uid = userId → u.favorites.count rid = 1 := by
  rw [updateFavs_idem]
  intro u hu huid
  unfold updateFavs at hu
  rw [List.mem_map] at hu
  obtain ⟨w, hw, rfl⟩ := hu
  by_cases hwid : w.uid = userId
  · rw [if_pos hwid]
    exact count_addToSet rid w.favorites (h w hw)
  · rw [if_neg hwid] at huid
    exact absurd huid hwid

/-- Claim C2: for every initial set of already-selected (lowercased) titles
and every sequence of candidate recipes, the duplicate filter of
`generate_recipes` computes exactly the specified streaming filter — it keeps
exactly those candidates whose lowercased title is not in the set at the
moment they are examined, adding each accepted title to the set — completes
without aborting, and the accepted candidates form a sublist of the input
(original order and original casing preserved). -/
theorem dedup_filter_streaming (existing : List String) (cands : List AIRecipe)
    (h : ∀ c ∈ cands, c.title ≠ none) :
    dedupLoop existing cands = (dupFilterSpec existing cands, true)
    ∧ (dedupLoop existing cands).1.Sublist cands :=
  ⟨dedupLoop_spec existing cands h, dedupLoop_sublist existing cands⟩

/-- Witness for C2, on the spec's own example: selected titles
{"Tomato Soup"} and candidates [tomato soup, Garlic Bread, garlic bread]
give exactly [Garlic Bread]. -/
theorem dedup_filter_streaming_witness :
    dedupLoop seedEx candsEx = (dupFilterSpec seedEx candsEx, true)
    ∧ (dedupLoop seedEx candsEx).1.Sublist candsEx
    ∧ (dedupLoop seedEx candsEx).1 = [{ title := some "Garlic Bread" }] :=
  ⟨(dedup_filter_streaming seedEx candsEx (by decide)).1,
   (dedup_filter_streaming seedEx candsEx (by decide)).2, by decide⟩

/-- Claim C5: the unauthenticated /public_recipes handler never invokes the
generation service (its result does not depend on the generation
collaborator and its generation-call count is 0) and the caller receives
only the stored matches: the first three text-search results of the
`StoredRecipes` collection. -/
theorem public_recipes_no_generation (req : PubRequest) (db : DB) (g g' : GenService) :
    public_recipes req db g = public_recipes req db g'
    ∧ (public_recipes req db g).2 = 0
    ∧ (public_recipes req db g).1 =
        (db.storedSearch (buildQuery req.ingredients req.cuisine)).take 3 := by
  refine ⟨rfl, rfl, ?_⟩
  show find_matching_recipes req.ingredients req.dietary req.cuisine ["StoredRecipes"] db = _
  unfold find_matching_recipes
  have h1 : ("StoredRecipes" ∈ (["StoredRecipes"] : List String)) := by decide
  have h2 : ¬ ("recipes" ∈ (["StoredRecipes"] : List String)) := by decide
  rw [if_pos h1, if_neg h2, List.append_nil]

/-- Counterexample for C6: the claim says the exact-match cuisine filter is
added exactly when cuisine ≠ "any", but for cuisine = "Any" the code adds no
filter (it lowercases before comparing), while the claim requires one. -/
theorem cuisine_filter_cex :
    (buildQuery ["egg"] "Any").cuisineFilter = none
    ∧ cuisineFilterClaimed "Any" = some "Any"
    ∧ (buildQuery ["egg"] "Any").cuisineFilter ≠ cuisineFilterClaimed "Any" := by
  decide

/-- Claim C6 (amended): stored matches are fetched via a full-text search
whose query string is the space-joined ingredient list; an exact-match
cuisine filter is added exactly when the cuisine string is non-empty and its
lowercased form differs from "any"; at most 3 results are taken per source
collection; and results are concatenated with `StoredRecipes` before
`recipes`. -/
theorem find_matching_recipes_amended (user_ingredients dietary_prefs : List String)
    (cuisine : String) (db : DB) :
    (buildQuery user_ingredients cuisine).search = String.intercalate " " user_ingredients
    ∧ ((buildQuery user_ingredients cuisine).cuisineFilter = some cuisine
        ↔ cuisine ≠ "" ∧ strLower cuisine ≠ "any")
    ∧ ((buildQuery user_ingredients cuisine).cuisineFilter = some cuisine
        ∨ (buildQuery user_ingredients cuisine).cuisineFilter = none)
    ∧ find_matching_recipes user_ingredients dietary_prefs cuisine
        ["StoredRecipes", "recipes"] db
        = (db.storedSearch (buildQuery user_ingredients cuisine)).take 3
          ++ (db.recipesSearch (buildQuery user_ingredients cuisine)).take 3
    ∧ ((db.storedSearch (buildQuery user_ingredients cuisine)).take 3).length ≤ 3
    ∧ ((db.recipesSearch (buildQuery user_ingredients cuisine)).take 3).length ≤ 3 := by
  refine ⟨rfl, ?_, ?_, ?_, ?_, ?_⟩
  · unfold buildQuery
    by_cases hc : cuisine ≠ "" ∧ strLower cuisine ≠ "any"
    · rw [if_pos hc]
      simp [hc]
    · rw [if_neg hc]
      simp [hc]
  · unfold buildQuery
    by_cases hc : cuisine ≠ "" ∧ strLower cuisine ≠ "any"
    · rw [if_pos hc]
      exact Or.inl rfl
    · rw [if_neg hc]
      exact Or.inr rfl
  · unfold find_matching_recipes
    have h1 : ("StoredRecipes" ∈ (["StoredRecipes", "recipes"] : List String)) := by decide
    have h2 : ("recipes" ∈ (["StoredRecipes", "recipes"] : List String)) := by decide
    rw [if_pos h1, if_pos h2]
  · exact List.length_take_le 3 _
  · exact List.length_take_le 3 _

deriving instance DecidableEq for Except

theorem generate_recipes_core_none (dbm : List StoredRecord) (final0 : List RecipeOut)
    (h : formatAll dbm = some final0) :
    generate_recipes_core dbm none
      = if final0 = [] then Except.error 500 else Except.ok (final0.map Item.stored) := by
  unfold generate_recipes_core
  rw [h]

theorem generate_recipes_core_some (dbm : List StoredRecord) (final0 : List RecipeOut)
    (ai : List AIRecipe) (h : formatAll dbm = some final0) :
    generate_recipes_core dbm (some ai)
      = (if (dedupLoop (final0.map (fun r => strLower r.title)) ai).2 then
           Except.ok (final0.map Item.stored
             ++ ((dedupLoop (final0.map (fun r => strLower r.title)) ai).1).map Item.ai)
         else if final0.map Item.stored
             ++ ((dedupLoop (final0.map (fun r => strLower r.title)) ai).1).map Item.ai = [] then
           Except.error 500
         else
           Except.ok (final0.map Item.stored
             ++ ((dedupLoop (final0.map (fun r => strLower r.title)) ai).1).map Item.ai)) := by
  unfold generate_recipes_core
  rw [h]

/-- Claim C1: for every authenticated generation request, if the generation
call fails (including a response that fails to parse as JSON) and at least
one stored match was found, /generate_recipes returns exactly the normalized
stored matches with no error; if it fails and no stored match was found, the
request fails with a 500 (UpstreamError). -/
theorem generate_parse_failure_policy
    (req : GenRequest) (db : DB) (gen : GenService) (ings : List String)
    (dbm : List StoredRecord) (final0 : List RecipeOut)
    (h_ing : req.ingredients = some ings)
    (h_dbm : find_matching_recipes ings req.dietary req.cuisine
      ["StoredRecipes", "recipes"] db = dbm)
    (h_fmt : formatAll dbm = some final0)
    (h_gen : gen ings req.dietary req.servings req.cuisine
      (dbm.map (fun r => r.title.getD "")) = none) :
    (dbm ≠ [] → (generate_recipes req db gen).1 = Except.ok (final0.map Item.stored))
    ∧ (dbm = [] → (generate_recipes req db gen).1 = Except.error 500) := by
  have hcore : (generate_recipes req db gen).1 = generate_recipes_core dbm none := by
    unfold generate_recipes
    rw [h_ing]
    simp only [h_dbm, h_gen]
  rw [hcore, generate_recipes_core_none dbm final0 h_fmt]
  constructor
  · intro hne
    rw [if_neg (fun hf => hne ((formatAll_eq_nil_iff h_fmt).1 hf))]
  · intro he
    rw [if_pos ((formatAll_eq_nil_iff h_fmt).2 he)]

/-- Witness for C1: a request over a store with one matching record and a
generation service whose response never parses returns exactly the
normalized stored match. -/
theorem generate_parse_failure_policy_witness :
    (generate_recipes reqW dbW genNoneW).1 = Except.ok ([outW].map Item.stored) :=
  (generate_parse_failure_policy reqW dbW genNoneW ["tomato"] [recW] [outW]
      rfl (by decide) (by decide) rfl).1 (by decide)

/-- Claim C10: if the parsed AI candidate list is pre ++ [bad] ++ post where
every candidate in pre has a "title" key and bad lacks one, /generate_recipes
stops filtering at bad: the stored matches and the candidates accepted from
pre remain in the returned list, every candidate after bad is dropped (the
result does not depend on post), and no error is signalled unless the
resulting list is empty, in which case a 500 is returned. -/
theorem generate_malformed_candidate
    (req : GenRequest) (db : DB) (gen : GenService) (ings : List String)
    (dbm : List StoredRecord) (final0 : List RecipeOut)
    (pre post : List AIRecipe) (bad : AIRecipe)
    (h_ing : req.ingredients = some ings)
    (h_dbm : find_matching_recipes ings req.dietary req.cuisine
      ["StoredRecipes", "recipes"] db = dbm)
    (h_fmt : formatAll dbm = some final0)
    (h_gen : gen ings req.dietary req.servings req.cuisine
      (dbm.map (fun r => r.title.getD "")) = some (pre ++ bad :: post))
    (h_pre : ∀ c ∈ pre, c.title ≠ none)
    (h_bad : bad.title = none) :
    (generate_recipes req db gen).1 =
      (if final0.map Item.stored
          ++ ((dedupLoop (final0.map (fun r => strLower r.title)) pre).1).map Item.ai = [] then
        Except.error 500
      else
        Except.ok (final0.map Item.stored
          ++ ((dedupLoop (final0.map (fun r => strLower r.title)) pre).1).map Item.ai)) := by
  have hcore : (generate_recipes req db gen).1
      = generate_recipes_core dbm (some (pre ++ bad :: post)) := by
    unfold generate_recipes
    rw [h_ing]
    simp only [h_dbm, h_gen]
  rw [hcore, generate_recipes_core_some dbm final0 (pre ++ bad :: post) h_fmt]
  have habort := dedupLoop_abort (final0.map (fun r => strLower r.title)) pre post bad h_pre h_bad
  rw [habort]
  rfl

/-- Witness for C10: with one stored match and the candidate list
[Garlic Bread, (no title), Dropped Dish], the result keeps the stored match
and Garlic Bread, drops Dropped Dish, and reports no error. -/
theorem generate_malformed_candidate_witness :
    (generate_recipes reqW dbW genBadW).1
      = Except.ok [Item.stored outW, Item.ai aiGood] :=
  (generate_malformed_candidate reqW dbW genBadW ["tomato"] [recW] [outW]
      [aiGood] [aiPost] aiBad rfl (by decide) (by decide) rfl (by decide) rfl).trans
    (by decide)

/-- Counterexample for C3: the claim says the normalized instructions equal
the record's "steps" value whenever that field is present, but the code uses
Python truthiness (`steps or instructions`): on a record with steps = [] and
instructions = ["Boil water"] the code yields ["Boil water"], not []. -/
theorem instructions_claim_cex :
    recC3.steps = some []
    ∧ instructionsClaimed recC3 = some []
    ∧ (formatFavorite recC3).instructions = some ["Boil water"]
    ∧ (formatFavorite recC3).instructions ≠ instructionsClaimed recC3 := by
  decide

/-- Claim C3 (amended): in both normalizers, the instructions field equals
the record's "steps" value when that field is present with a non-empty
value; when "steps" is absent or present but empty, it equals the record's
"instructions" value as-is (hence null when that is also absent). In
particular, when both are set and "steps" is non-empty, "steps" wins. -/
theorem instructions_precedence_amended (r : StoredRecord) :
    (∀ s, r.steps = some s → s ≠ [] →
      (formatFavorite r).instructions = some s
      ∧ ∀ o, formatDbMatch r = some o → o.instructions = some s)
    ∧ ((r.steps = none ∨ r.steps = some []) →
      (formatFavorite r).instructions = r.instructions
      ∧ ∀ o, formatDbMatch r = some o → o.instructions = r.instructions) := by
  constructor
  · intro s hs hne
    have hfav : (formatFavorite r).instructions = some s := by
      show pyOrList r.steps r.instructions = some s
      rw [hs]
      show (if s = [] then r.instructions else some s) = some s
      rw [if_neg hne]
    refine ⟨hfav, fun o ho => ?_⟩
    have hagree := (formatDbMatch_agrees r o ho).2.2.2.2.1
    rw [hagree, hfav]
  · intro hcase
    have hfav : (formatFavorite r).instructions = r.instructions := by
      show pyOrList r.steps r.instructions = r.instructions
      rcases hcase with h | h
      · rw [h]
        rfl
      · rw [h]
        show (if ([] : List String) = [] then r.instructions else some []) = r.instructions
        rw [if_pos rfl]
    refine ⟨hfav, fun o ho => ?_⟩
    have hagree := (formatDbMatch_agrees r o ho).2.2.2.2.1
    rw [hagree, hfav]

/-- Witness for C3 (amended): a record with steps = ["Chop"] and
instructions = ["Ignored"] normalizes to instructions = ["Chop"] in both
normalizers. -/
theorem instructions_precedence_amended_witness :
    (formatFavorite recC3w).instructions = some ["Chop"] :=
  ((instructions_precedence_amended recC3w).1 ["Chop"] rfl (by decide)).1

/-- Counterexample for C4: the claim says every absent optional value
renders as the literal "N/A" or is omitted/null, with no other rendering of
absence; but a record without a "servings" key renders as the string
"Serves None" (Python str(None) interpolated), which is neither "N/A" nor
null/omitted. -/
theorem servings_absent_cex :
    recAllAbsent.servings = none
    ∧ (formatFavorite recAllAbsent).servings = "Serves None"
    ∧ (formatFavorite recAllAbsent).servings ≠ "N/A"
    ∧ (formatFavorite recAllAbsent).servings ≠ "Serves N/A" := by
  decide

/-- Claim C4 (amended): normalization is total on records with a title —
never an error on missing optional fields — and each absent optional value
renders as follows: description, ingredients, cookingTime, difficulty and
(when both steps and instructions are absent) instructions render as null;
absent nutrition components render as the literal "N/A" inside the
nutritionalInfo string — both when the whole nutrition object is absent and
when the object is present but an individual calories/protein key is missing
(each slot defaults independently); absent servings renders as the string
"Serves None". The generate-side normalizer agrees with the favorites-side
one on every such field. -/
theorem normalize_absent_fields_amended (r : StoredRecord) :
    ((formatDbMatch r).isSome ↔ r.title.isSome)
    ∧ (r.description = none → (formatFavorite r).description = none)
    ∧ (r.ingredients = none → (formatFavorite r).ingredients = none)
    ∧ (r.steps = none → r.instructions = none → (formatFavorite r).instructions = none)
    ∧ (r.cooking_time = none → (formatFavorite r).cookingTime = none)
    ∧ (r.difficulty = none → (formatFavorite r).difficulty = none)
    ∧ (r.nutrition = none →
        (formatFavorite r).nutritionalInfo = "Calories: N/A, Protein: N/Ag")
    ∧ (∀ n, r.nutrition = some n →
        (formatFavorite r).nutritionalInfo
          = "Calories: " ++ n.calories.getD "N/A" ++ ", Protein: "
            ++ n.protein.getD "N/A" ++ "g")
    ∧ (r.servings = none → (formatFavorite r).servings = "Serves None")
    ∧ (∀ o, formatDbMatch r = some o →
        o.description = (formatFavorite r).description
        ∧ o.ingredients = (formatFavorite r).ingredients
        ∧ o.instructions = (formatFavorite r).instructions
        ∧ o.cookingTime = (formatFavorite r).cookingTime
        ∧ o.difficulty = (formatFavorite r).difficulty
        ∧ o.nutritionalInfo = (formatFavorite r).nutritionalInfo
        ∧ o.servings = (formatFavorite r).servings) := by
  refine ⟨?_, ?_, ?_, ?_, ?_, ?_, ?_, ?_, ?_, ?_⟩
  · cases ht : r.title with
    | none => simp [formatDbMatch, ht]
    | some t => simp [formatDbMatch, ht]
  · intro h
    show r.description = none
    exact h
  · intro h
    show r.ingredients = none
    exact h
  · intro h1 h2
    show pyOrList r.steps r.instructions = none
    rw [h1]
    unfold pyOrList
    exact h2
  · intro h
    show r.cooking_time = none
    exact h
  · intro h
    show r.difficulty = none
    exact h
  · intro h
    show nutritionalInfoOf r.nutrition = "Calories: N/A, Protein: N/Ag"
    rw [h]
    rfl
  · intro n hn
    show nutritionalInfoOf r.nutrition = _
    rw [hn]
    rfl
  · intro h
    show "Serves " ++ pyStr r.servings = "Serves None"
    rw [h]
    rfl
  · intro o ho
    have h := formatDbMatch_agrees r o ho
    exact ⟨h.2.2.1, h.2.2.2.1, h.2.2.2.2.1, h.2.2.2.2.2.1, h.2.2.2.2.2.2.1,
      h.2.2.2.2.2.2.2.1, h.2.2.2.2.2.2.2.2⟩

/-- Witness for C4 (amended): on a record with every optional field absent,
normalization succeeds and renders null fields, "N/A" nutrition components,
and "Serves None". -/
theorem normalize_absent_fields_amended_witness :
    (formatFavorite recAllAbsent).description = none
    ∧ (formatFavorite recAllAbsent).instructions = none
    ∧ (formatFavorite recAllAbsent).nutritionalInfo = "Calories: N/A, Protein: N/Ag"
    ∧ (formatFavorite recAllAbsent).servings = "Serves None"
    ∧ (formatDbMatch recAllAbsent).isSome
    ∧ (formatFavorite recNutrC4).nutritionalInfo = "Calories: N/A, Protein: 7g" := by
  obtain ⟨h1, h2, h3, h4, h5, h6, h7, h7c, h8, h9⟩ :=
    normalize_absent_fields_amended recAllAbsent
  obtain ⟨-, -, -, -, -, -, -, g7c, -, -⟩ :=
    normalize_absent_fields_amended recNutrC4
  refine ⟨h2 rfl, h4 rfl rfl, h7 rfl, h8 rfl, h1.2 (by decide), ?_⟩
  exact g7c { calories := none, protein := some "7" } rfl

/-- Claim C7: adding a durable recipe identifier to a user's favorites twice
is idempotent — the second add changes nothing — and every user document for
that user ends with exactly one occurrence of the identifier (given the
store invariant that favorites arrays hold an id at most once, which
`$addToSet` preserves and registration establishes). -/
theorem add_favorite_idempotent (st : AppState) (userId rid : String) (body : FavBody)
    (isValid : String → Bool) (n1 n2 : String)
    (hid : body.id = some rid) (hv : isValid rid = true)
    (hcount : ∀ u ∈ st.users, u.favorites.count rid ≤ 1) :
    add_favorite ((add_favorite st userId body isValid n1).1) userId body isValid n2
      = ((add_favorite st userId body isValid n1).1, rid)
    ∧ ∀ u ∈ (add_favorite ((add_favorite st userId body isValid n1).1)
          userId body isValid n2).1.users,
        u.uid = userId → u.favorites.count rid = 1 := by
  obtain ⟨us, rs⟩ := st
  have hstep : ∀ (s : AppState) (n : String),
      add_favorite s userId body isValid n
        = ({ s with users := updateFavs s.users userId rid }, rid) := by
    intro s n
    unfold add_favorite
    rw [hid]
    simp only [hv, if_true]
  have hfirst := hstep ⟨us, rs⟩ n1
  have hsecond := hstep ((add_favorite ⟨us, rs⟩ userId body isValid n1).1) n2
  constructor
  · rw [hsecond, hfirst]
    show (⟨updateFavs (updateFavs us userId rid) userId rid, rs⟩, rid)
      = ((⟨updateFavs us userId rid, rs⟩ : AppState), rid)
    rw [updateFavs_idem]
  · rw [hsecond, hfirst]
    exact count_updateFavs_twice us userId rid hcount

/-- Witness for C7: favoriting the durable id "abc" twice from a fresh user
leaves the favorites array ["abc"] — one occurrence — and the second add is
a no-op. -/
theorem add_favorite_idempotent_witness :
    add_favorite ((add_favorite stC7 "u1" bodyC7 validAll "n1").1) "u1" bodyC7 validAll "n2"
      = ((add_favorite stC7 "u1" bodyC7 validAll "n1").1, "abc")
    ∧ (add_favorite ((add_favorite stC7 "u1" bodyC7 validAll "n1").1)
          "u1" bodyC7 validAll "n2").1.users
        = [{ uid := "u1", username := "alice", password := "h", favorites := ["abc"] }] :=
  ⟨(add_favorite_idempotent stC7 "u1" "abc" bodyC7 validAll "n1" "n2"
      rfl rfl (by decide)).1, by decide⟩

/-- Claim C8: the unfavorite operation first removes the identifier from the
current user's favorites, and the persisted ad-hoc recipe record with that
identifier is kept exactly when some account still references the identifier
after the removal, and deleted (no record with that id remains, given unique
record ids) exactly when none does. -/
theorem remove_favorite_orphan (st : AppState) (userId rid : String)
    (hnodup : (st.recipes.map (fun r => r.oid)).Nodup) :
    (∀ u ∈ (remove_favorite st userId rid).users, u.uid = userId → rid ∉ u.favorites)
    ∧ ((∃ u ∈ (remove_favorite st userId rid).users, rid ∈ u.favorites) →
        (remove_favorite st userId rid).recipes = st.recipes)
    ∧ ((∀ u ∈ (remove_favorite st userId rid).users, rid ∉ u.favorites) →
        ∀ r ∈ (remove_favorite st userId rid).recipes, r.oid ≠ rid) := by
  have husers : (remove_favorite st userId rid).users = pullFavs st.users userId rid := by
    unfold remove_favorite
    split <;> rfl
  refine ⟨?_, ?_, ?_⟩
  · intro u hu huid
    rw [husers] at hu
    unfold pullFavs at hu
    rw [List.mem_map] at hu
    obtain ⟨w, hw, rfl⟩ := hu
    by_cases hwid : w.uid = userId
    · rw [if_pos hwid]
      intro hmem
      have := (List.mem_filter.1 hmem).2
      simp at this
    · rw [if_neg hwid] at huid
      exact absurd huid hwid
  · intro hex
    obtain ⟨u, hu, hmem⟩ := hex
    rw [husers] at hu
    have hc : (pullFavs st.users userId rid).any (fun u => rid ∈ u.favorites) = true :=
      List.any_eq_true.mpr ⟨u, hu, decide_eq_true hmem⟩
    unfold remove_favorite
    rw [if_pos hc]
  · intro hall r hr
    have hc : ¬ ((pullFavs st.users userId rid).any (fun u => rid ∈ u.favorites) = true) := by
      intro habs
      obtain ⟨u, hu, hp⟩ := List.any_eq_true.mp habs
      exact hall u (husers ▸ hu) (of_decide_eq_true hp)
    have hrec : (remove_favorite st userId rid).recipes = removeFirst rid st.recipes := by
      unfold remove_favorite
      rw [if_neg hc]
    rw [hrec] at hr
    exact removeFirst_no_id rid st.recipes hnodup r hr

/-- Witness for C8: a single user unfavoriting "r1" when nobody else
references it empties their favorites and deletes the record: the recipes
collection becomes empty and the updated user no longer lists "r1". -/
theorem remove_favorite_orphan_witness :
    (remove_favorite stC8 "u1" "r1").recipes = []
    ∧ ("r1" : String) ∉ (User.mk "u1" "alice" "h" []).favorites
    ∧ (remove_favorite stC8 "u1" "r1").users = [User.mk "u1" "alice" "h" []] := by
  refine ⟨by decide, ?_, by decide⟩
  exact (remove_favorite_orphan stC8 "u1" "r1" (by decide)).1
    (User.mk "u1" "alice" "h" []) (by decide) rfl

/-- Evidence for C9 (a code bug): /register performs no username-uniqueness
check — it unconditionally inserts — so registering a username that already
belongs to an existing account yields at least two accounts with that
username, contradicting the claimed uniqueness invariant. -/
theorem register_allows_duplicate_username (st : AppState) (username password : String)
    (hash : String → String) (newId : String)
    (h : ∃ u ∈ st.users, u.username = username) :
    2 ≤ (register st username password hash newId).users.countP
        (fun u => u.username == username) := by
  unfold register
  show 2 ≤ (st.users ++ [User.mk newId username (hash password) []]).countP
      (fun u => u.username == username)
  rw [List.countP_append]
  obtain ⟨u, hu, huname⟩ := h
  have h1 : 0 < st.users.countP (fun u => u.username == username) :=
    List.countP_pos_iff.mpr ⟨u, hu, by rw [huname]; exact beq_self_eq_true username⟩
  have h2 : List.countP (fun u => u.username == username)
      [User.mk newId username (hash password) []] = 1 := by
    simp [List.countP_cons]
  omega

/-- Witness for C9: registering "alice" twice from an empty store produces
exactly two accounts named "alice". -/
theorem register_allows_duplicate_username_witness :
    2 ≤ (register (register ⟨[], []⟩ "alice" "pw" hashId "u1")
          "alice" "pw2" hashId "u2").users.countP (fun u => u.username == "alice")
    ∧ (register (register ⟨[], []⟩ "alice" "pw" hashId "u1")
          "alice" "pw2" hashId "u2").users.countP (fun u => u.username == "alice") = 2 :=
  ⟨register_allows_duplicate_username (register ⟨[], []⟩ "alice" "pw" hashId "u1")
      "alice" "pw2" hashId "u2" (by decide), by decide⟩
